import Mathlib

/-!
Verification of the binding and formatting expression engine of
`src/Vis/visFormatUtils.jsx` (class `VisFormatUtils`), together with
`deepClone` from `src/Utils/utils.tsx`.

The JavaScript source is shallowly embedded: JS runtime values are the
inductive `JsValue` (numbers as exact rationals, with `nan` a separate
constructor; the unrepresentable IEEE specials `Infinity`/`-Infinity` are
outside the model and flagged at the definitions that could produce them).
Host primitives that are not code of this repository (the `moment` calendar
library, `Date`, `JSON.parse`, `new Function` script execution,
`Math.random`) are fields of explicit context structures, so every engine
function stays executable once a concrete context is supplied.

String manipulation is re-implemented on `List Char` with structural or
fuel-based recursion so that all definitions reduce inside the kernel.
-/

namespace VisFmt

mutual

/-- Pure JSON trees, the values produced by the host `JSON.parse`. Arrays
and objects carry mutually defined list types so that every function on
them is structural (and therefore kernel-reducible). -/
inductive Json where
  | jnull
  | jbool (b : Bool)
  | jnum (q : Rat)
  | jstr (s : String)
  | jarr (xs : JsonItems)
  | jobj (fields : JsonFields)

/-- Element list of a JSON array. -/
inductive JsonItems where
  | nil
  | cons (hd : Json) (tl : JsonItems)

/-- Key-value list of a JSON object. -/
inductive JsonFields where
  | nil
  | cons (key : String) (val : Json) (tl : JsonFields)

end

deriving instance DecidableEq for Json, JsonItems, JsonFields

/-- JavaScript runtime values as they flow through the formatting pipeline.
`nan` is kept apart from `num` so that NaN propagation is explicit; a JS
`Date` instance is `date ms` with its epoch-milliseconds time value; plain
objects and arrays are carried as their JSON tree. -/
inductive JsValue where
  | undef
  | null
  | bool (b : Bool)
  | num (q : Rat)
  | nan
  | str (s : String)
  | obj (j : Json)
  | date (ms : Int)
deriving DecidableEq

/-- JS `typeof` (note the JS quirk `typeof null === 'object'`). -/
def jsTypeof : JsValue → String
  | .undef => "undefined"
  | .null => "object"
  | .bool _ => "boolean"
  | .num _ => "number"
  | .nan => "number"
  | .str _ => "string"
  | .obj _ => "object"
  | .date _ => "object"

/-- JS truthiness: `undefined`, `null`, `false`, `0`, `NaN` and the empty
string are falsy, every object is truthy. -/
def jsTruthy : JsValue → Bool
  | .undef => false
  | .null => false
  | .bool b => b
  | .num q => decide (q ≠ 0)
  | .nan => false
  | .str s => decide (s ≠ "")
  | .obj _ => true
  | .date _ => true

/-- A JS number: `none` models IEEE NaN, `some q` an (exactly represented)
finite value. -/
abbrev JsNum := Option Rat

/-- Truncation toward zero, the rounding JS applies in `parseInt` on numbers
and in the `Date` constructor. -/
def ratTrunc (q : Rat) : Int :=
  if 0 ≤ q then Rat.floor q else Rat.ceil q

/-- Rational addition routed through `mkRat` (kernel-reducible). -/
def ratAdd (a b : Rat) : Rat :=
  mkRat (a.num * (b.den : Int) + b.num * (a.den : Int)) (a.den * b.den)

/-- Rational subtraction routed through `mkRat`. -/
def ratSub (a b : Rat) : Rat :=
  mkRat (a.num * (b.den : Int) - b.num * (a.den : Int)) (a.den * b.den)

/-- Rational multiplication routed through `mkRat`. -/
def ratMul (a b : Rat) : Rat :=
  mkRat (a.num * b.num) (a.den * b.den)

/-- Rational division routed through `mkRat`. Division by zero yields `0`
here, where JS would produce `Infinity`; no verified claim exercises it. -/
def ratDiv (a b : Rat) : Rat :=
  if 0 ≤ b.num then mkRat (a.num * (b.den : Int)) (a.den * b.num.toNat)
  else mkRat (-(a.num * (b.den : Int))) (a.den * (-b.num).toNat)

/-- Left-brace character, kept out of string literals. -/
def lbrace : Char := '\x7b'

/-- Right-brace character, kept out of string literals. -/
def rbrace : Char := '\x7d'

/-- Does the character list start with the given pattern? -/
def listStartsWith : List Char → List Char → Bool
  | _, [] => true
  | [], _ :: _ => false
  | c :: cs, p :: ps => c == p && listStartsWith cs ps

/-- Replace the first occurrence of `pat` by `rep` (fuel-based so the
definition reduces in the kernel); JS `String.prototype.replace` with a
string pattern. An empty pattern matches at the front, as in JS. -/
def listReplaceFirst (fuel : Nat) (s pat rep : List Char) : List Char :=
  match fuel with
  | 0 => s
  | fuel + 1 =>
    if listStartsWith s pat then rep ++ s.drop pat.length
    else
      match s with
      | [] => []
      | c :: cs => c :: listReplaceFirst fuel cs pat rep

/-- Replace every (non-overlapping, left-to-right) occurrence of `pat` by
`rep`; JS `String.prototype.replace` with a global regex on a literal
pattern. A `[]` pattern is treated as absent. -/
def listReplaceAll (fuel : Nat) (s pat rep : List Char) : List Char :=
  match fuel with
  | 0 => s
  | fuel + 1 =>
    match s with
    | [] => []
    | c :: cs =>
      if pat ≠ [] && listStartsWith s pat then
        rep ++ listReplaceAll fuel (s.drop pat.length) pat rep
      else c :: listReplaceAll fuel cs pat rep

/-- Split at every occurrence of a (nonempty) separator; JS
`String.prototype.split` on a string separator. -/
def listSplitOn (fuel : Nat) (s sep : List Char) (cur : List Char) : List (List Char) :=
  match fuel with
  | 0 => [cur.reverse ++ s]
  | fuel + 1 =>
    match s with
    | [] => [cur.reverse]
    | c :: cs =>
      if sep ≠ [] && listStartsWith s sep then
        cur.reverse :: listSplitOn fuel (s.drop sep.length) sep []
      else listSplitOn fuel cs sep (c :: cur)

/-- String wrapper for `listReplaceFirst`. -/
def strReplaceFirst (s pat rep : String) : String :=
  String.mk (listReplaceFirst (s.data.length + 1) s.data pat.data rep.data)

/-- String wrapper for `listReplaceAll`. -/
def strReplaceAll (s pat rep : String) : String :=
  String.mk (listReplaceAll (s.data.length + 1) s.data pat.data rep.data)

/-- String wrapper for `listSplitOn`. -/
def strSplitOn (s sep : String) : List String :=
  (listSplitOn (s.data.length + 1) s.data sep.data []).map String.mk

/-- Substring test, via splitting. -/
def strContains (s pat : String) : Bool :=
  decide (1 < (strSplitOn s pat).length)

/-- Prefix test on strings. -/
def strStartsWith (s pat : String) : Bool :=
  listStartsWith s.data pat.data

/-- Lower-casing, character by character (JS `toLowerCase` on the ASCII
range used by the source). -/
def strLower (s : String) : String :=
  String.mk (s.data.map Char.toLower)

end VisFmt

namespace VisFmt

/-- Decimal digits of a natural number. -/
def natStr (n : Nat) : String :=
  String.mk (Nat.toDigits 10 n)

/-- Decimal rendering of an integer. -/
def intStr (i : Int) : String :=
  if i < 0 then "-" ++ natStr i.natAbs else natStr i.natAbs

/-- Leading decimal digits of a character list, with the rest. -/
def takeDigits : List Char → List Char × List Char
  | [] => ([], [])
  | c :: cs =>
    if c.isDigit then
      let (ds, rest) := takeDigits cs
      (c :: ds, rest)
    else ([], c :: cs)

/-- Numeric value of a list of decimal digits. -/
def digitsVal (ds : List Char) : Nat :=
  ds.foldl (fun acc c => acc * 10 + (c.toNat - 48)) 0

/-- Optional leading sign; returns (negative?, rest). -/
def takeSign : List Char → Bool × List Char
  | '-' :: cs => (true, cs)
  | '+' :: cs => (false, cs)
  | cs => (false, cs)

/-- Leading-prefix float parsing after whitespace skipping: the host
`parseFloat` grammar `[+-]? (digits [. digits?] | . digits) [eE [+-] digits]`.
Returns `none` (NaN) when no digit is found. The IEEE specials
(`Infinity`) are outside the model. -/
def parseFloatAux (cs0 : List Char) : Option (Rat × List Char) :=
  let cs := cs0.dropWhile Char.isWhitespace
  let (neg, cs) := takeSign cs
  let (ip, cs) := takeDigits cs
  let (fp, cs) :=
    match cs with
    | '.' :: rest => takeDigits rest
    | _ => (ip.take 0, cs)
  if ip.isEmpty && fp.isEmpty then none
  else
    let mant : Int := (digitsVal ip * 10 ^ fp.length + digitsVal fp : Nat)
    let mant := if neg then -mant else mant
    let base := mkRat mant (10 ^ fp.length)
    let expStep : Int × List Char :=
      match cs with
      | 'e' :: rest =>
        let (eneg, rest2) := takeSign rest
        let (eds, rest3) := takeDigits rest2
        if eds.isEmpty then (0, cs)
        else ((if eneg then -(digitsVal eds : Int) else (digitsVal eds : Int)), rest3)
      | 'E' :: rest =>
        let (eneg, rest2) := takeSign rest
        let (eds, rest3) := takeDigits rest2
        if eds.isEmpty then (0, cs)
        else ((if eneg then -(digitsVal eds : Int) else (digitsVal eds : Int)), rest3)
      | _ => (0, cs)
    let e := expStep.1
    some ((if 0 ≤ e then ratMul base (mkRat (10 ^ e.toNat) 1)
           else ratDiv base (mkRat (10 ^ (-e).toNat) 1)), expStep.2)

/-- Value-only wrapper of `parseFloatAux`. -/
def parseFloatCore (cs : List Char) : Option Rat :=
  (parseFloatAux cs).map (fun r => r.1)

/-- Host `Number(string)` coercion: both-ends trim, empty means `0`, and
the whole remainder must be numeric (hexadecimal literals and the IEEE
specials are outside the model). `none` is NaN. -/
def jsNumberOfString (s : String) : Option Rat :=
  let cs := ((s.data.dropWhile Char.isWhitespace).reverse.dropWhile Char.isWhitespace).reverse
  if cs.isEmpty then some 0
  else
    match parseFloatAux cs with
    | some (q, []) => some q
    | _ => none

/-- Leading-prefix integer parsing after whitespace skipping: the host
`parseInt(x, 10)` grammar. `none` is NaN. -/
def parseIntCore (cs0 : List Char) : Option Int :=
  let cs := cs0.dropWhile Char.isWhitespace
  let (neg, cs) := takeSign cs
  let (ds, _) := takeDigits cs
  if ds.isEmpty then none
  else some (if neg then -(digitsVal ds : Int) else (digitsVal ds : Int))

/-- Smallest `k ≤ 30` with `den ∣ 10 ^ k`, if any: the denominators whose
decimal expansion terminates within the model's precision. -/
def pow10Exp (den : Nat) : Option Nat :=
  (List.range 31).find? (fun k => 10 ^ k % den == 0)

/-- Drop trailing zeros of a digit list. -/
def dropTrailingZeros (ds : List Char) : List Char :=
  (ds.reverse.dropWhile (fun c => c == '0')).reverse

/-- Decimal digit list of `n`, left-padded with zeros to width `w`. -/
def padDigits (n : Nat) (w : Nat) : List Char :=
  let ds := Nat.toDigits 10 n
  List.replicate (w - ds.length) '0' ++ ds

/-- Host `Number → String` conversion, modelled exactly for numbers with a
terminating decimal expansion (all values the claims exercise) and by a
16-digit truncation otherwise; exponent display of very large or small
magnitudes is not modelled. -/
def jsNumToString (q : Rat) : String :=
  let sign := if q.num < 0 then "-" else ""
  let n := q.num.natAbs
  if q.den == 1 then sign ++ natStr n
  else
    let k := (pow10Exp q.den).getD 16
    let scaled := n * 10 ^ k / q.den
    let ipart := scaled / 10 ^ k
    let fpart := dropTrailingZeros (padDigits (scaled % 10 ^ k) k)
    if fpart.isEmpty then sign ++ natStr ipart
    else sign ++ natStr ipart ++ "." ++ String.mk fpart

/-- Host `Number.prototype.toFixed d`: fixed-point rendering with `d`
decimals, rounding half away from zero (the binary-double tie behaviour of
the host is not distinguishable at the inputs the claims exercise). -/
def toFixed (q : Rat) (d : Nat) : String :=
  let absQ := mkRat q.num.natAbs q.den
  let rounded := (Rat.floor (ratAdd (ratMul absQ (mkRat (10 ^ d) 1)) (mkRat 1 2))).toNat
  let sign := if q.num < 0 then "-" else ""
  let ipart := rounded / 10 ^ d
  if d == 0 then sign ++ natStr ipart
  else sign ++ natStr ipart ++ "." ++ String.mk (padDigits (rounded % 10 ^ d) d)

mutual

/-- Display string of a JSON tree under the host `String()` coercion:
arrays join their elements with commas (`null` elements showing empty, as
in JS `Array.prototype.toString`), plain objects show `[object Object]`. -/
def jsonDisplay : Json → String
  | .jnull => ""
  | .jbool b => if b then "true" else "false"
  | .jnum q => jsNumToString q
  | .jstr s => s
  | .jarr xs => jsonDisplayItems xs
  | .jobj _ => "[object Object]"

/-- Comma-joined display of array elements. -/
def jsonDisplayItems : JsonItems → String
  | .nil => ""
  | .cons x .nil => jsonDisplay x
  | .cons x tl => jsonDisplay x ++ "," ++ jsonDisplayItems tl

end

end VisFmt

namespace VisFmt

/-- Display string of a host `Date` under `String()`. The host renders a
locale-dependent text that never parses as a number; the model uses a
canonical marker with the same property. -/
def dateDisplay (ms : Int) : String :=
  "Date(" ++ intStr ms ++ ")"

/-- The host `String()` coercion on a JS value (applied by the engine when a
final pipeline value is substituted into the template). -/
def jsDisplay : JsValue → String
  | .undef => "undefined"
  | .null => "null"
  | .bool b => if b then "true" else "false"
  | .num q => jsNumToString q
  | .nan => "NaN"
  | .str s => s
  | .obj j => jsonDisplay j
  | .date ms => dateDisplay ms

/-- Host `parseFloat(v)`: the argument is coerced to a string and a leading
float prefix is parsed; on an actual number the result is the number itself
(the host string round-trip is exact). `none` is NaN. -/
def jsParseFloat : JsValue → Option Rat
  | .num q => some q
  | .nan => none
  | v => parseFloatCore (jsDisplay v).data

/-- Host `parseInt(v, 10)`: string coercion then leading-integer parsing;
on an actual number this truncates toward zero (the host's exponent-display
quirk on huge magnitudes is outside the model). `none` is NaN. -/
def jsParseInt : JsValue → Option Int
  | .num q => some (ratTrunc q)
  | .nan => none
  | v => parseIntCore (jsDisplay v).data

/-- JSON string escaping for `jsonRender` (quote and backslash; rarer
control-character escapes are not needed by any exercised input). -/
def jsonEscape (s : String) : String :=
  String.mk (s.data.foldr (fun c acc =>
    if c == '"' then '\\' :: '"' :: acc
    else if c == '\\' then '\\' :: '\\' :: acc
    else c :: acc) [])

mutual

/-- Host `JSON.stringify` on a JSON tree. -/
def jsonRender : Json → String
  | .jnull => "null"
  | .jbool b => if b then "true" else "false"
  | .jnum q => jsNumToString q
  | .jstr s => "\"" ++ jsonEscape s ++ "\""
  | .jarr xs => "[" ++ jsonRenderItems xs ++ "]"
  | .jobj fs => String.mk [lbrace] ++ jsonRenderFields fs ++ String.mk [rbrace]

/-- Array elements of `jsonRender`. -/
def jsonRenderItems : JsonItems → String
  | .nil => ""
  | .cons x .nil => jsonRender x
  | .cons x tl => jsonRender x ++ "," ++ jsonRenderItems tl

/-- Object fields of `jsonRender`. -/
def jsonRenderFields : JsonFields → String
  | .nil => ""
  | .cons k v .nil => "\"" ++ jsonEscape k ++ "\":" ++ jsonRender v
  | .cons k v tl => "\"" ++ jsonEscape k ++ "\":" ++ jsonRender v ++ "," ++ jsonRenderFields tl

end

/-- Field lookup on a JSON object's field list (first match, as in JS). -/
def jsonFieldsGet : JsonFields → String → Option Json
  | .nil, _ => none
  | .cons k v tl, key => if k == key then some v else jsonFieldsGet tl key

/-- Index lookup on a JSON array's element list. -/
def jsonItemsGet : JsonItems → Nat → Option Json
  | .nil, _ => none
  | .cons x _, 0 => some x
  | .cons _ tl, n + 1 => jsonItemsGet tl n

/-- Runtime value denoted by a parsed JSON tree (also the value a property
access on a parsed object produces): leaves become primitives, arrays and
objects stay objects. -/
def jsonMemberValue : Json → JsValue
  | .jnull => .null
  | .jbool b => .bool b
  | .jnum q => .num q
  | .jstr s => .str s
  | j => .obj j

/-- Replace (or add) a field of a JSON object's field list. -/
def jsonFieldsSet : JsonFields → String → Json → JsonFields
  | .nil, key, v => .cons key v .nil
  | .cons k w tl, key, v =>
    if k == key then .cons k v tl else .cons k w (jsonFieldsSet tl key v)

/-- Calendar fields of an instant. -/
structure DateFields where
  year : Int
  month : Nat
  day : Nat
  hours : Nat
  minutes : Nat
  seconds : Nat
  millis : Nat

/-- Civil (proleptic Gregorian) date of a day count since 1970-01-01; the
standard era-based algorithm. -/
def civilFromDays (z0 : Int) : Int × Nat × Nat :=
  let z := z0 + 719468
  let era := Int.fdiv z 146097
  let doe := (z - era * 146097).toNat
  let yoe := (doe - doe / 1460 + doe / 36524 - doe / 146096) / 365
  let doy := doe - (365 * yoe + yoe / 4 - yoe / 100)
  let mp := (5 * doy + 2) / 153
  let d := doy - (153 * mp + 2) / 5 + 1
  let m := if mp < 10 then mp + 3 else mp - 9
  let y := (yoe : Int) + era * 400
  ((if m ≤ 2 then y + 1 else y), m, d)

/-- Field extraction of an instant in the host's local time zone: JS
`getFullYear`/`getMonth`/… with `tz` the constant `getTimezoneOffset()`
(UTC minus local, in minutes; daylight-saving transitions are outside the
model). -/
def localFields (tz ms : Int) : DateFields :=
  let localMs := ms - tz * 60000
  let days := Int.fdiv localMs 86400000
  let rem := (localMs - days * 86400000).toNat
  let ymd := civilFromDays days
  { year := ymd.1
    month := ymd.2.1
    day := ymd.2.2
    hours := rem / 3600000
    minutes := rem / 60000 % 60
    seconds := rem / 1000 % 60
    millis := rem % 1000 }

/-- ISO-8601 UTC rendering of an instant: the host `Date.prototype.toJSON`
used by `JSON.stringify` on `Date` values (years before 1 CE unmodelled). -/
def dateISO (ms : Int) : String :=
  let f := localFields 0 ms
  String.mk (padDigits f.year.toNat 4) ++ "-" ++ String.mk (padDigits f.month 2) ++ "-" ++
    String.mk (padDigits f.day 2) ++ "T" ++ String.mk (padDigits f.hours 2) ++ ":" ++
    String.mk (padDigits f.minutes 2) ++ ":" ++ String.mk (padDigits f.seconds 2) ++ "." ++
    String.mk (padDigits f.millis 3) ++ "Z"

/-- Host `JSON.stringify` on a runtime value (the engine applies it to
values of `typeof === 'object'`, so objects and `Date`s). -/
def jsValueStringify : JsValue → String
  | .null => "null"
  | .obj j => jsonRender j
  | .date ms => "\"" ++ dateISO ms ++ "\""
  | .bool b => if b then "true" else "false"
  | .num q => jsNumToString q
  | .nan => "null"
  | .str s => "\"" ++ jsonEscape s ++ "\""
  | .undef => "undefined"

/-- Engine context: the `vis` options read by `VisFormatUtils` (user,
login-required flag, instance, language, default date pattern, translation
function, edit-mode flag, live states) plus the host primitives the
implementation calls (`Date` string parsing and time-zone offset,
`JSON.parse`, `new Function` execution, `Math.random` draws). An unset
`vis.dateFormat` is the empty string (falsy, as in JS). -/
structure VisCtx where
  user : JsValue
  loginRequired : JsValue
  visInstance : JsValue
  language : JsValue
  dateFormat : String
  tr : String → String
  editMode : Bool
  states : String → JsValue
  tzOffsetMin : Int
  parseDateStr : String → Int
  jsonParse : String → Option Json
  evalExec : String → Except String JsValue
  randoms : Nat → Rat

/-- The external `moment` calendar library handle passed per call: current
instant, string parsing, pattern rendering, same-calendar-day test,
one-day subtraction, and the (invalid-date) conversion of exotic inputs. -/
structure MomentLib where
  nowMs : Int
  parse : String → Int
  fmt : Int → String → String
  sameDay : Int → Int → Bool
  subDay : Int → Int
  ofOther : JsValue → Int

end VisFmt

namespace VisFmt

/-- Engine log stream: `console.error` / `console.warn` lines. -/
inductive LogEntry where
  | error (msg : String)
  | warn (msg : String)
deriving DecidableEq

/-- JS `\w` word characters, for the `\B` boundary of the grouping regex. -/
def isWordChar (c : Char) : Bool :=
  c.isAlphanum || c == '_'

/-- Length of the leading run of decimal digits. -/
def digitRun : List Char → Nat
  | [] => 0
  | c :: cs => if c.isDigit then digitRun cs + 1 else 0

/-- One step of the thousands-grouping regex
`/\B(?=(\d{3})+(?!\d))/g`: before each character that sits at a non-boundary
position whose following maximal digit run has positive length divisible by
3, the (string-coerced) separator is inserted. -/
def groupInsertGo (rep : List Char) (prev : Char) : List Char → List Char
  | [] => []
  | c :: cs =>
    let run := digitRun (c :: cs)
    let hit := isWordChar prev == isWordChar c && run % 3 == 0 && run != 0
    (if hit then rep ++ [c] else [c]) ++ groupInsertGo rep c cs

/-- JS `s.replace(/\B(?=(\d{3})+(?!\d))/g, rep)` (the regex can never match
in front of the first character, since the lookahead demands a digit there
and a leading digit makes that position a word boundary). -/
def groupInsert (s rep : String) : String :=
  match s.data with
  | [] => s
  | c :: cs => String.mk (c :: groupInsertGo rep.data c cs)

/-- The `format[i]` access of `formatValue` under the host's string
coercion of a replacement argument: out-of-range or non-string access
yields `undefined`, which `String.prototype.replace` renders `"undefined"`. -/
def fmtComponentStr (v : JsValue) (i : Nat) : String :=
  match v with
  | .str s =>
    match s.data.get? i with
    | some c => String.mk [c]
    | none => "undefined"
  | _ => "undefined"

/-- `VisFormatUtils.formatValue(value, decimals, _format)`
(src/Vis/visFormatUtils.jsx lines 69-84): legacy argument shuffle when
`decimals` is not a number (note the source sets `_format` to the already
overwritten `decimals`, i.e. to the number `2`), `".,"` as default
separator pair, float coercion of non-numbers, empty string on NaN, and
otherwise `toFixed`, first-occurrence decimal replacement by `format[1]`
and the thousands-grouping insertion of `format[0]`. -/
def formatValue (value decimals0 _format0 : JsValue) : String :=
  let pair :=
    if jsTypeof decimals0 ≠ "number" then (JsValue.num 2, JsValue.num 2)
    else (decimals0, _format0)
  let decimals := pair.1
  let _format := pair.2
  let format :=
    match _format with
    | .undef => JsValue.str ".,"
    | .null => JsValue.str ".,"
    | v => v
  let coerced : Option Rat :=
    match value with
    | .num q => some q
    | .nan => none
    | v => jsParseFloat v
  match coerced with
  | none => ""
  | some q =>
    let d : Nat :=
      match decimals with
      | .num dq => if dq = 0 then 0 else (ratTrunc dq).toNat
      | _ => 0
    let fixed := toFixed q d
    let step1 := strReplaceFirst fixed (fmtComponentStr format 0) (fmtComponentStr format 1)
    groupInsert step1 (fmtComponentStr format 0)

/-- The `_format || this.vis.dateFormat || 'DD.MM.YYYY'` pattern resolution
shared by both date formatters. A truthy non-string pattern is modelled as
the empty pattern: the host's token loop reads `.length` of the value and
renders nothing for numbers or booleans. -/
def resolveDateFmt (ctx : VisCtx) (v : JsValue) : String :=
  if jsTruthy v then
    match v with
    | .str s => s
    | _ => ""
  else if ctx.dateFormat ≠ "" then ctx.dateFormat else "DD.MM.YYYY"

/-- Triple first-occurrence replacement of the weekday tokens
`dddd`/`ddd`/`dd` by a literal, as `formatMomentDate` performs before
rendering. -/
def substWeekday (format tok : String) : String :=
  strReplaceFirst (strReplaceFirst (strReplaceFirst format "dddd" tok) "ddd" tok) "dd" tok

/-- The instant (epoch ms) `formatMomentDate` hands to the library: strings
go through `moment(string)`, an existing date object is used as is, and a
number is classified by the 2000-01-01 threshold heuristic (a `moment` of a
number is epoch milliseconds). Exotic inputs (`true`, plain objects) fall
to the library's conversion of invalid input. -/
def momentInstant (lib : MomentLib) : JsValue → Int
  | .str s => lib.parse s
  | .date ms => ms
  | .num q =>
    let j := ratTrunc q
    if q = mkRat j 1 then
      if j < 946681200 then j
      else if j < 946681200000 then j * 1000 else j
    else ratTrunc q
  | v => lib.ofOther v

/-- `formatMomentDate(dateObj, _format, useTodayOrYesterday, moment)`
(src/Vis/visFormatUtils.jsx lines 86-126). The result is `Option String`
because the source declares `let result;` and assigns it only in the
today/yesterday branches when `useTodayOrYesterday` is truthy: an instant
on neither day returns JS `undefined`, modelled `none`. -/
def formatMomentDate (ctx : VisCtx) (lib : MomentLib) (dateObj _format0 useTY0 : JsValue) :
    Option String :=
  let useTY := match useTY0 with | .undef => JsValue.bool false | v => v
  if ¬jsTruthy dateObj then some "" else
  let ms := momentInstant lib dateObj
  let format := resolveDateFmt ctx _format0
  if jsTruthy useTY then
    let r0 : Option String := none
    let r1 :=
      if lib.sameDay ms lib.nowMs then some (lib.fmt ms (substWeekday format (ctx.tr "Today")))
      else r0
    if lib.sameDay ms (lib.subDay lib.nowMs) then
      some (lib.fmt ms (substWeekday format (ctx.tr "Yesterday")))
    else r1
  else some (lib.fmt ms format)

/-- Two-character zero padding of `_put`: `v < 10` and a 2-character token
prepend a `'0'`. -/
def put2 (n : Nat) (tokenLen : Nat) : String :=
  if n < 10 ∧ tokenLen = 2 then "0" ++ natStr n else natStr n

/-- `VisFormatUtils._put(ss, dateObj, result)`
(src/Vis/visFormatUtils.jsx lines 128-209): appends the date field selected
by the token run `ss` (Latin, German and Cyrillic aliases) to `result`;
unknown runs append nothing. Two-character tokens zero-pad to width 2
(milliseconds to width 3); a two-character year token takes the year modulo
100 (JS truncated remainder) without padding. -/
def _put (ss : String) (f : DateFields) (result : String) : String :=
  let v : String :=
    if ss == "YYYY" || ss == "JJJJ" || ss == "ГГГГ" || ss == "YY" || ss == "JJ" || ss == "ГГ" then
      intStr (if ss.data.length == 2 then Int.tmod f.year 100 else f.year)
    else if ss == "MM" || ss == "M" || ss == "ММ" || ss == "М" then
      put2 f.month ss.data.length
    else if ss == "DD" || ss == "TT" || ss == "D" || ss == "T" || ss == "ДД" || ss == "Д" then
      put2 f.day ss.data.length
    else if ss == "hh" || ss == "SS" || ss == "h" || ss == "S" || ss == "чч" || ss == "ч" then
      put2 f.hours ss.data.length
    else if ss == "mm" || ss == "m" || ss == "мм" || ss == "м" then
      put2 f.minutes ss.data.length
    else if ss == "ss" || ss == "s" || ss == "cc" || ss == "c" then
      put2 f.seconds ss.data.length
    else if ss == "sss" || ss == "ссс" then
      String.mk (padDigits f.millis 3)
    else ""
  result ++ v

/-- The format characters that accumulate into a token run
(src/Vis/visFormatUtils.jsx line 246). -/
def validFormatChars : String := "YJГMМDTДhSчmмsс"

/-- The token-run loop of `formatDate` (lines 250-260): runs of format
characters are flushed through `_put`, any other character is copied
verbatim. -/
def dateRenderGo (f : DateFields) : List Char → List Char → String → String
  | [], s, result => _put (String.mk s) f result
  | c :: cs, s, result =>
    if validFormatChars.data.contains c then dateRenderGo f cs (s ++ [c]) result
    else dateRenderGo f cs [] (_put (String.mk s) f result ++ String.mk [c])

/-- Rendering of a pattern over the local-time fields of an instant: the
tail of `formatDate` after the instant and pattern are fixed. -/
def dateRender (tz : Int) (format : String) (ms : Int) : String :=
  dateRenderGo (localFields tz ms) format.data [] ""

/-- The numeric-input classification of `formatDate`
(src/Vis/visFormatUtils.jsx lines 228-240): an integer below `946681200`
(2000-01-01 in epoch seconds) becomes a duration with the raw value as
epoch ms, an integer below `946681200000` is epoch seconds (scaled by
1000), any other integer is epoch ms; non-integers go straight to
`new Date(value)` (truncated). Returns (epoch ms, isDuration). -/
def dateFromNumber (q : Rat) (isDur : Bool) : Int × Bool :=
  let j := ratTrunc q
  if q = mkRat j 1 then
    if j < 946681200 then (j, true)
    else if j < 946681200000 then (j * 1000, isDur)
    else (j, isDur)
  else (ratTrunc q, isDur)

/-- The argument normalization of `formatDate` (lines 213-219): a string
`'duration'` (case-insensitive) or `true` forces the duration flag; any
non-boolean second argument slides into the pattern position. Returns
(isDuration, pattern argument). -/
def normDateArgs (isDuration0 _format0 : JsValue) : Bool × JsValue :=
  let isDuration1 :=
    if (match isDuration0 with | .str s => strLower s == "duration" | _ => false)
        || (match isDuration0 with | .bool b => b | _ => false) then
      JsValue.bool true
    else isDuration0
  match isDuration1 with
  | .bool b => (b, _format0)
  | v => (false, v)

/-- `formatDate(dateObj, isDuration, _format)`
(src/Vis/visFormatUtils.jsx lines 211-262): argument normalization, empty
string on falsy input, string parsing through the host `Date`, the numeric
threshold heuristic, pattern fallback to `vis.dateFormat` then
`'DD.MM.YYYY'`, a single timezone-offset shift of duration instants before
field extraction, and token rendering. A plain (non-`Date`) object input
would make the host throw at field extraction and is modelled as the zero
instant; no claim exercises it. -/
def formatDate (ctx : VisCtx) (dateObj isDuration0 _format0 : JsValue) : String :=
  let norm := normDateArgs isDuration0 _format0
  let isDur0 := norm.1
  let _format := norm.2
  if ¬jsTruthy dateObj then "" else
  let conv : Int × Bool :=
    match dateObj with
    | .str s => (ctx.parseDateStr s, isDur0)
    | .date ms => (ms, isDur0)
    | .obj _ => (0, isDur0)
    | .num q => dateFromNumber q isDur0
    | .bool b => (if b then 1 else 0, isDur0)
    | _ => (0, isDur0)
  let format := resolveDateFmt ctx _format
  let ms := if conv.2 then conv.1 + ctx.tzOffsetMin * 60000 else conv.1
  dateRender ctx.tzOffsetMin format ms

end VisFmt

namespace VisFmt

/-- Upper-casing, character by character (JS `toUpperCase` on the ASCII
range used by the source). -/
def strUpper (s : String) : String :=
  String.mk (s.data.map Char.toUpper)

/-- Drop the first `n` characters of a string. -/
def strDrop (s : String) (n : Nat) : String :=
  String.mk (s.data.drop n)

/-- `VisFormatUtils.getSpecialValues(name, view, wid, widgetData)`
(src/Vis/visFormatUtils.jsx lines 48-67): the reserved identifiers that
resolve from engine/view context instead of the live-state map; anything
else is `undefined`. -/
def getSpecialValues (ctx : VisCtx) (name view wid : String) (widgetData : Json) : JsValue :=
  if name == "username.val" then ctx.user
  else if name == "login.val" then ctx.loginRequired
  else if name == "instance.val" then ctx.visInstance
  else if name == "language.val" then ctx.language
  else if name == "wid.val" then .str wid
  else if name == "wname.val" then
    let nameVal : JsValue :=
      match widgetData with
      | .jobj fs =>
        match jsonFieldsGet fs "name" with
        | some j => jsonMemberValue j
        | none => .undef
      | _ => .undef
    if jsTruthy nameVal then nameVal else .str wid
  else if name == "view.val" then .str view
  else JsValue.undef

/-- Length of a JSON array's element list. -/
def jsonItemsLen : JsonItems → Nat
  | .nil => 0
  | .cons _ tl => jsonItemsLen tl + 1

/-- The single-property access `obj[part]` of `getObjPropValue`: object
field lookup, canonical numeric indexing and `length` on arrays and
strings; anything else is `undefined`. -/
def objPropStep (v : JsValue) (part : String) : JsValue :=
  match v with
  | .obj (.jobj fs) =>
    match jsonFieldsGet fs part with
    | some j => jsonMemberValue j
    | none => .undef
  | .obj (.jarr xs) =>
    if part == "length" then .num (mkRat (jsonItemsLen xs) 1)
    else
      match parseIntCore part.data with
      | some i =>
        if i < 0 then .undef
        else if natStr i.toNat == part then
          match jsonItemsGet xs i.toNat with
          | some j => jsonMemberValue j
          | none => .undef
        else .undef
      | none => .undef
  | .str s =>
    if part == "length" then .num (mkRat s.data.length 1)
    else
      match parseIntCore part.data with
      | some i =>
        if i < 0 then .undef
        else if natStr i.toNat == part then
          match s.data.get? i.toNat with
          | some c => .str (String.mk [c])
          | none => .undef
        else .undef
      | none => .undef
  | _ => JsValue.undef

/-- The part loop of `getObjPropValue`: each step indexes by the next path
part and bails out with `undefined` as soon as the intermediate value is
falsy. -/
def getObjPropValueGo : List String → JsValue → JsValue
  | [], v => v
  | p :: ps, v =>
    let v2 := objPropStep v p
    if ¬jsTruthy v2 then .undef else getObjPropValueGo ps v2

/-- `VisFormatUtils.getObjPropValue(obj, propPath)`
(src/Vis/visFormatUtils.jsx lines 34-46): walk the dot-separated property
path, returning `undefined` for a falsy starting object or any falsy
intermediate value. -/
def getObjPropValue (obj : JsValue) (propPath : String) : JsValue :=
  if ¬jsTruthy obj then .undef
  else getObjPropValueGo (strSplitOn propPath ".") obj

end VisFmt

namespace VisFmt

/-- A named argument of an `eval` operation, as the binding parser produces
it: variable name and the state reference it resolves from. -/
structure EvalArg where
  name : String
  visOid : String
deriving DecidableEq

/-- The argument slot of an operation. `undef` models an absent argument
(the parser only ever omits arguments, it does not emit `null` ones);
`list` is the array argument of the `array` operation and `args` the
named-argument descriptors of `eval`. -/
inductive OperArg where
  | undef
  | num (q : Rat)
  | str (s : String)
  | list (xs : List String)
  | args (xs : List EvalArg)
deriving DecidableEq

/-- One transformation operation of a binding: the `{op, arg, formula}`
records the binding parser produces (`formula` is only meaningful for
`eval` and empty otherwise). `op` is a raw string so that unrecognized
operator kinds are representable. -/
structure Operation where
  op : String
  arg : OperArg
  formula : String
deriving DecidableEq

/-- One parsed binding: the state reference, the exact brace-delimited
`token` substring to substitute, and the optional operation chain
(`none` when the parser left `operations` undefined; an empty list is a
present-but-empty chain). -/
structure Binding where
  visOid : String
  token : String
  operations : Option (List Operation)
deriving DecidableEq

/-- `deepClone` from src/Utils/utils.tsx lines 53-55:
`JSON.parse(JSON.stringify(object))`. On the pure binding data of this
model the JSON round-trip is the identity; the definition is kept so the
cache code below states exactly where the source takes copies. -/
def deepClone (bindings : List Binding) : List Binding :=
  bindings

/-- The `bindingsCache` object: raw template string to parsed bindings. -/
abbrev BCache := List (String × List Binding)

/-- Property lookup on the cache object (first match wins; insertion
prepends, shadowing any older entry, which matches JS property update). -/
def bcacheGet : BCache → String → Option (List Binding)
  | [], _ => none
  | (k, v) :: tl, key => if k == key then some v else bcacheGet tl key

/-- `VisFormatUtils.extractBinding(format)`
(src/Vis/visFormatUtils.jsx lines 264-280): `null` for a falsy template;
a cache hit (only outside edit mode, and only for a truthy cached value —
note an empty array is truthy in JS) returns a deep copy without invoking
the parser; otherwise the external parser primitive `extractBinding` of
`src/Vis/visUtils.jsx` runs once and a truthy result is stored as a deep
copy (again only outside edit mode). Returns (result, new cache, number of
parser invocations). -/
def extractBinding (ctx : VisCtx) (parserPrim : String → Option (List Binding))
    (cache : BCache) (format : String) : Option (List Binding) × BCache × Nat :=
  if format == "" then (none, cache, 0)
  else
    match (if ¬ctx.editMode then bcacheGet cache format else none) with
    | some entry => (some (deepClone entry), cache, 0)
    | none =>
      let result := parserPrim format
      let cache2 :=
        match result with
        | some l => if ¬ctx.editMode then (format, deepClone l) :: cache else cache
        | none => cache
      (result, cache2, 1)

/-- Per-call environment of the operator pipeline: engine context, the
`moment` handle, view/widget coordinates and the resolved values map. -/
structure BindEnv where
  ctx : VisCtx
  lib : MomentLib
  view : String
  wid : String
  widget : Json
  widgetData : Json
  values : String → JsValue

/-- The `widget.data.oid` access used by the `widgetOid.` prefix expansion
of `eval` arguments; a missing field shows as the text `undefined` in the
constructed reference (where the host would interpolate `undefined`). -/
def widgetDataOid (widget : Json) : String :=
  match widget with
  | .jobj fs =>
    match jsonFieldsGet fs "data" with
    | some (.jobj dfs) =>
      match jsonFieldsGet dfs "oid" with
      | some (.jstr s) => s
      | some j => jsonDisplay j
      | none => "undefined"
    | _ => "undefined"
  | _ => "undefined"

/-- The clone-and-override `w = deepClone(widget); w.data = widgetData`
before the widget snapshot is serialized into an `eval` script. -/
def jsonSetData (widget wd : Json) : Json :=
  match widget with
  | .jobj fs => .jobj (jsonFieldsSet fs "data" wd)
  | j => j

/-- Serialization of one named `eval` argument into a `const` declaration
(src/Vis/visFormatUtils.jsx lines 315-348): arguments with a falsy name are
skipped; the value resolves through `getSpecialValues`, then the values map
(with the `widgetOid.` prefix rewritten to the widget's own oid);
`null`/`undefined` become literals; strings that parse as JSON
objects/arrays (or `null`) are embedded as a `JSON.parse` call with quotes
escaped, other parse results are interpolated inside quotes, unparseable
strings are quoted as they are; objects are embedded via `JSON.stringify`;
numbers and booleans via `toString`. -/
def serializeEvalArg (env : BindEnv) (a : EvalArg) : String :=
  if a.name == "" then "" else
  let special := getSpecialValues env.ctx a.visOid env.view env.wid env.widgetData
  let value :=
    match special with
    | .undef =>
      if strStartsWith a.visOid "widgetOid." then
        env.values (widgetDataOid env.widget ++ "." ++ strDrop a.visOid 10)
      else env.values a.visOid
    | .null =>
      if strStartsWith a.visOid "widgetOid." then
        env.values (widgetDataOid env.widget ++ "." ++ strDrop a.visOid 10)
      else env.values a.visOid
    | v => v
  match value with
  | .null => "const " ++ a.name ++ " = null;"
  | .undef => "const " ++ a.name ++ " = undefined;"
  | .str s =>
    match env.ctx.jsonParse s with
    | some j =>
      let parsed := jsonMemberValue j
      if jsTypeof parsed == "object" then
        "const " ++ a.name ++ " = JSON.parse(\"" ++
          strReplaceAll (jsValueStringify parsed) "\"" "\\\"" ++ "\");"
      else "const " ++ a.name ++ " = \"" ++ jsDisplay parsed ++ "\";"
    | none => "const " ++ a.name ++ " = \"" ++ s ++ "\";"
  | .obj j => "const " ++ a.name ++ " = " ++ jsonRender j ++ ";"
  | .date ms => "const " ++ a.name ++ " = " ++ jsValueStringify (.date ms) ++ ";"
  | v => "const " ++ a.name ++ " = " ++ jsDisplay v ++ ";"

/-- The script text an `eval` operation constructs
(src/Vis/visFormatUtils.jsx lines 313-361): the `const` declarations of all
named arguments, a serialized widget snapshot when the formula mentions
`widget.`, the `return formula;` tail, and the final unescaping of `\"`
sequences. -/
def buildEvalScript (env : BindEnv) (args : List EvalArg) (formula : String) : String :=
  let s := String.join (args.map (serializeEvalArg env))
  let s :=
    if strContains formula "widget." then
      s ++ "const widget = " ++ jsonRender (jsonSetData env.widget env.widgetData) ++ ";"
    else s
  let s := s ++ "return " ++ formula ++ ";"
  if strContains s "\\\"" then strReplaceAll s "\\\"" "\"" else s

end VisFmt

namespace VisFmt

/-- Convert a list of strings into a JSON array's element list. -/
def listToItems : List String → JsonItems
  | [] => .nil
  | s :: tl => .cons (.jstr s) (listToItems tl)

/-- The runtime value an operation argument denotes. -/
def operArgToValue : OperArg → JsValue
  | .undef => .undef
  | .num q => .num q
  | .str s => .str s
  | .list xs => .obj (.jarr (listToItems xs))
  | .args _ => .obj (.jobj .nil)

/-- Host `Number()` coercion of an operation argument, as the arithmetic
and comparison operators apply it. `none` is NaN. -/
def operArgNumber : OperArg → Option Rat
  | .undef => none
  | .num q => some q
  | .str s => jsNumberOfString s
  | .list [] => some 0
  | .list [x] => jsNumberOfString x
  | .list _ => none
  | .args _ => none

/-- String view of an operation argument where the source calls a string
method on it (`split`, the `json` path): the parser supplies strings there;
a non-string is modelled by its display string (the host would throw). -/
def operArgString : OperArg → String
  | .str s => s
  | a => jsDisplay (operArgToValue a)

/-- Host `Math.round`: half-up toward positive infinity, also for negative
values. -/
def jsRound (q : Rat) : Int :=
  Rat.floor (ratAdd q (mkRat 1 2))

/-- Non-negative integer power of a rational. -/
def ratPow (a : Rat) : Nat → Rat
  | 0 => mkRat 1 1
  | n + 1 => ratMul a (ratPow a n)

/-- Host `**` on rationals: integer exponents are exact; a fractional
exponent generally produces an irrational value outside the model and is
mapped to NaN (no claim exercises it). -/
def jsPow (a b : Rat) : Option Rat :=
  if b.den == 1 then
    if 0 ≤ b.num then some (ratPow a b.num.toNat)
    else if a = 0 then none
    else some (ratDiv (mkRat 1 1) (ratPow a (-b.num).toNat))
  else none

/-- Host `Math.sqrt` restricted to the model: exact rational square roots;
negative input is NaN as in the host, an irrational root is outside the
model and mapped to NaN (no claim exercises it). -/
def jsSqrt (q : Rat) : Option Rat :=
  if q.num < 0 then none
  else
    let sn := Nat.sqrt q.num.toNat
    let sd := Nat.sqrt q.den
    if sn * sn == q.num.toNat && sd * sd == q.den then some (mkRat sn sd) else none

/-- Host truncated remainder `%` on numbers (sign of the dividend); a zero
divisor is NaN. -/
def jsMod (a b : Rat) : Option Rat :=
  if b = 0 then none
  else some (ratSub a (ratMul b (mkRat (ratTrunc (ratDiv a b)) 1)))

/-- Base-16 rendering of an integer (JS `toString(16)`), lower-case. -/
def intHex (i : Int) : String :=
  if i < 0 then "-" ++ String.mk (Nat.toDigits 16 i.natAbs)
  else String.mk (Nat.toDigits 16 i.natAbs)

/-- Binary arithmetic step shared by `*`, `/`, `+`, `-`, `%`: parse the
pipeline value as float, combine with the numeric coercion of the present
argument, propagate NaN. -/
def arithResult (f : Rat → Rat → Option Rat) (value : JsValue) (arg : OperArg) : JsValue :=
  match jsParseFloat value, operArgNumber arg with
  | some a, some b =>
    match f a b with
    | some r => .num r
    | none => .nan
  | _, _ => .nan

end VisFmt

namespace VisFmt

/-- One step of the operator pipeline: the `switch (operation.op)` of
`formatBinding` (src/Vis/visFormatUtils.jsx lines 312-498), in source case
order, taking the current (possibly partially substituted) template text
`fmt` for the log messages and the index of the next `Math.random` draw.
Returns (new value, emitted log entries, next draw index). Every branch is
total: the only failure-prone branch, `eval`, catches its execution error,
logs it and forces the value to `0`. -/
def applyOperation (env : BindEnv) (fmt : String) (op : Operation) (value : JsValue)
    (rnd : Nat) : JsValue × List LogEntry × Nat :=
  if op.op == "eval" then
    let argsList := match op.arg with | .args xs => xs | _ => []
    let script := buildEvalScript env argsList op.formula
    match env.ctx.evalExec script with
    | .ok v =>
      let v := if jsTruthy v && jsTypeof v == "object" then JsValue.str (jsValueStringify v) else v
      (v, [], rnd)
    | .error e =>
      (.num 0,
       [.error ("Error in eval[value]: " ++ fmt),
        .error ("Error in eval[script]: " ++ script),
        .error ("Error in eval[error]: " ++ e)], rnd)
  else if op.op == "*" then
    match op.arg with
    | .undef => (value, [], rnd)
    | a => (arithResult (fun x y => some (ratMul x y)) value a, [], rnd)
  else if op.op == "/" then
    match op.arg with
    | .undef => (value, [], rnd)
    | a => (arithResult (fun x y => some (ratDiv x y)) value a, [], rnd)
  else if op.op == "+" then
    match op.arg with
    | .undef => (value, [], rnd)
    | a => (arithResult (fun x y => some (ratAdd x y)) value a, [], rnd)
  else if op.op == "-" then
    match op.arg with
    | .undef => (value, [], rnd)
    | a => (arithResult (fun x y => some (ratSub x y)) value a, [], rnd)
  else if op.op == "%" then
    match op.arg with
    | .undef => (value, [], rnd)
    | a => (arithResult jsMod value a, [], rnd)
  else if op.op == "round" then
    match op.arg with
    | .undef =>
      (match jsParseFloat value with
       | some q => (.num (mkRat (jsRound q) 1), [], rnd)
       | none => (.nan, [], rnd))
    | a =>
      (match jsParseFloat value with
       | some q =>
         let d := match operArgNumber a with | some b => (ratTrunc b).toNat | none => 0
         (.str (toFixed q d), [], rnd)
       | none => (.str "NaN", [], rnd))
  else if op.op == "pow" then
    match op.arg with
    | .undef =>
      (match jsParseFloat value with
       | some q => (.num (ratMul q q), [], rnd)
       | none => (.nan, [], rnd))
    | a => (arithResult jsPow value a, [], rnd)
  else if op.op == "sqrt" then
    (match jsParseFloat value with
     | some q => match jsSqrt q with | some r => (.num r, [], rnd) | none => (.nan, [], rnd)
     | none => (.nan, [], rnd))
  else if op.op == "hex" then
    (match jsParseFloat value with
     | some q => (.str (intHex (jsRound q)), [], rnd)
     | none => (.str "NaN", [], rnd))
  else if op.op == "hex2" then
    let s := match jsParseFloat value with
      | some q => intHex (jsRound q)
      | none => "NaN"
    (.str (if s.data.length < 2 then "0" ++ s else s), [], rnd)
  else if op.op == "HEX" then
    (match jsParseFloat value with
     | some q => (.str (strUpper (intHex (jsRound q))), [], rnd)
     | none => (.str "NAN", [], rnd))
  else if op.op == "HEX2" then
    let s := match jsParseFloat value with
      | some q => strUpper (intHex (jsRound q))
      | none => "NAN"
    (.str (if s.data.length < 2 then "0" ++ s else s), [], rnd)
  else if op.op == "value" then
    let d : JsValue :=
      match jsParseInt (operArgToValue op.arg) with
      | some i => .num (mkRat i 1)
      | none => .nan
    (.str (formatValue value d .undef), [], rnd)
  else if op.op == "array" then
    let idx := jsParseInt value
    let v2 : JsValue :=
      match op.arg, idx with
      | .list xs, some i =>
        if i < 0 then .undef
        else match xs.get? i.toNat with
          | some s => .str s
          | none => .undef
      | .str s, some i =>
        if i < 0 then .undef
        else match s.data.get? i.toNat with
          | some c => .str (String.mk [c])
          | none => .undef
      | _, _ => .undef
    (v2, [], rnd)
  else if op.op == "date" then
    (.str (formatDate env.ctx value (operArgToValue op.arg) .undef), [], rnd)
  else if op.op == "momentDate" then
    match op.arg with
    | .undef => (value, [], rnd)
    | a =>
      let params := strSplitOn (operArgString a) ","
      let v2 : JsValue :=
        match params with
        | [p0] =>
          match formatMomentDate env.ctx env.lib value (.str p0) (.bool false) with
          | some s => .str s
          | none => .undef
        | [p0, p1] =>
          match formatMomentDate env.ctx env.lib value (.str p0) (.str p1) with
          | some s => .str s
          | none => .undef
        | _ => .str "error"
      (v2, [], rnd)
  else if op.op == "min" then
    match jsParseFloat value with
    | none => (.nan, [], rnd)
    | some q =>
      match operArgNumber op.arg with
      | some a => if q < a then (operArgToValue op.arg, [], rnd) else (.num q, [], rnd)
      | none => (.num q, [], rnd)
  else if op.op == "max" then
    match jsParseFloat value with
    | none => (.nan, [], rnd)
    | some q =>
      match operArgNumber op.arg with
      | some a => if a < q then (operArgToValue op.arg, [], rnd) else (.num q, [], rnd)
      | none => (.num q, [], rnd)
  else if op.op == "random" then
    match op.arg with
    | .undef => (.num (env.ctx.randoms rnd), [], rnd + 1)
    | a =>
      match operArgNumber a with
      | some b => (.num (ratMul (env.ctx.randoms rnd) b), [], rnd + 1)
      | none => (.nan, [], rnd + 1)
  else if op.op == "floor" then
    (match jsParseFloat value with
     | some q => (.num (mkRat (Rat.floor q) 1), [], rnd)
     | none => (.nan, [], rnd))
  else if op.op == "ceil" then
    (match jsParseFloat value with
     | some q => (.num (mkRat (Rat.ceil q) 1), [], rnd)
     | none => (.nan, [], rnd))
  else if op.op == "json" then
    let step1 : JsValue × List LogEntry :=
      match value with
      | .str s =>
        if s ≠ "" then
          match env.ctx.jsonParse s with
          | some j => (jsonMemberValue j, [])
          | none => (value, [.warn ("Cannot parse JSON string: " ++ s)])
        else (value, [])
      | v => (v, [])
    let v2 := step1.1
    let v3 :=
      if jsTruthy v2 && jsTypeof v2 == "object" then getObjPropValue v2 (operArgString op.arg)
      else v2
    (v3, step1.2, rnd)
  else
    (value, [.warn ("Unknown operator: " ++ fmt)], rnd)

/-- The recognized operator kinds: exactly the non-default cases of the
pipeline switch. -/
def knownOps : List String :=
  ["eval", "*", "/", "+", "-", "%", "round", "pow", "sqrt", "hex", "hex2", "HEX",
   "HEX2", "value", "array", "date", "momentDate", "min", "max", "random",
   "floor", "ceil", "json"]

/-- The `for (const operation of oid.operations)` loop: operations apply
strictly left to right, each consuming the previous value; logs accumulate
in order. -/
def runOperations (env : BindEnv) (fmt : String) :
    List Operation → JsValue → Nat → JsValue × List LogEntry × Nat
  | [], v, rnd => (v, [], rnd)
  | op :: rest, v, rnd =>
    let r := applyOperation env fmt op v rnd
    let r2 := runOperations env fmt rest r.1 r.2.2
    (r2.1, r.2.1 ++ r2.2.1, r2.2.2)

end VisFmt

namespace VisFmt

/-- The per-call options record of `formatBinding`
(`{format, view, wid, widget, widgetData, values?, moment}`); `values` is
the optional explicit override of the live-state map. -/
structure FormatBindingOptions where
  format : String
  view : String
  wid : String
  widget : Json
  widgetData : Json
  values : Option (String → JsValue)
  moment : MomentLib

/-- The final brace unescape of `formatBinding`
(src/Vis/visFormatUtils.jsx line 504): every doubled opening brace becomes
a single one, then every doubled closing brace. -/
def unescapeBraces (s : String) : String :=
  strReplaceAll (strReplaceAll s (String.mk [lbrace, lbrace]) (String.mk [lbrace]))
    (String.mk [rbrace, rbrace]) (String.mk [rbrace])

/-- The `for (const oid of oids)` loop of `formatBinding` (lines 301-502):
resolve the binding's value through `getSpecialValues` then the values map,
run the operation chain when one is present, and substitute the
string-coerced result for the first occurrence of the binding's token in
the working template. The working template is threaded, so log messages of
later bindings show earlier substitutions. -/
def formatBindingGo (env : BindEnv) :
    List Binding → String → List LogEntry → Nat → String × List LogEntry × Nat
  | [], fmt, logs, rnd => (fmt, logs, rnd)
  | oid :: rest, fmt, logs, rnd =>
    let value0 : JsValue :=
      if oid.visOid ≠ "" then
        match getSpecialValues env.ctx oid.visOid env.view env.wid env.widgetData with
        | .undef => env.values oid.visOid
        | .null => env.values oid.visOid
        | v => v
      else .undef
    let step : JsValue × List LogEntry × Nat :=
      match oid.operations with
      | some ops => runOperations env fmt ops value0 rnd
      | none => (value0, [], rnd)
    let fmt2 := strReplaceFirst fmt oid.token (jsDisplay step.1)
    formatBindingGo env rest fmt2 (logs ++ step.2.1) step.2.2

/-- `VisFormatUtils.formatBinding(options)`
(src/Vis/visFormatUtils.jsx lines 290-507). The result is `Except`: the
source iterates `for (const oid of oids)` directly over the result of
`extractBinding`, so a `null` parse — which `extractBinding` returns for
every falsy template and whenever the parser primitive reports no
bindings — makes the host throw `TypeError: oids is not iterable`, modelled
as the `error` case. Otherwise the loop runs, the brace escapes are
restored and the substituted template is returned together with the updated
bindings cache and the emitted log entries. -/
def formatBinding (ctx : VisCtx) (parserPrim : String → Option (List Binding))
    (cache : BCache) (opts : FormatBindingOptions) :
    Except String String × BCache × List LogEntry :=
  let values := match opts.values with | some f => f | none => ctx.states
  let ex := extractBinding ctx parserPrim cache opts.format
  match ex.1 with
  | none => (.error "TypeError: oids is not iterable", ex.2.1, [])
  | some oids =>
    let env : BindEnv :=
      ⟨ctx, opts.moment, opts.view, opts.wid, opts.widget, opts.widgetData, values⟩
    let r := formatBindingGo env oids opts.format [] 0
    (.ok (unescapeBraces r.1), ex.2.1, r.2.1)

end VisFmt

deriving instance DecidableEq for Except

namespace VisFmt

/-- Modelled from the spec: the external binding parser primitive
(`extractBinding` of `src/Vis/visUtils.jsx`, whose source is not among the
reviewed files) "produce[s] an ordered list of `Binding` or an empty/`null`
result if the string contains no recognizable binding token" (spec 4.1).
This stub is the `null` answer for a no-binding template. -/
def parserReportsNull : String → Option (List Binding) :=
  fun _ => none

/-- Modelled from the spec: the empty-list answer of the external binding
parser primitive for a template with no recognizable binding token
(spec 4.1 allows either an empty or a `null` result). -/
def parserReportsEmpty : String → Option (List Binding) :=
  fun _ => some []

/-- Concrete engine context for witnesses and counterexamples: runtime
(non-edit) mode, German default date pattern, identity translation,
`getTimezoneOffset() = 60` (UTC-1), empty state map, every constructed
script failing with a syntax error, constant `Math.random` draws. -/
def ctxA : VisCtx :=
  ⟨.str "admin", .bool false, .num 0, .str "en", "DD.MM.YYYY", fun s => s, false,
   fun _ => .undef, 60, fun _ => 0, fun _ => none, fun _ => .error "SyntaxError",
   fun _ => mkRat 1 2⟩

/-- Concrete `moment` stub: "now" is ten days after the epoch, rendering
tags the pattern and instant, same-day compares UTC day numbers, one day is
86400000 ms. -/
def libA : MomentLib :=
  ⟨864000000, fun _ => 0, fun ms f => "R:" ++ f ++ ":" ++ intStr ms,
   fun a b => Int.fdiv a 86400000 == Int.fdiv b 86400000, fun ms => ms - 86400000,
   fun _ => 0⟩

/-- Concrete pipeline environment over `ctxA` and `libA`. -/
def envA : BindEnv :=
  ⟨ctxA, libA, "view1", "w1", .jobj .nil, .jobj .nil, fun _ => .undef⟩

/-- Options record with template `f` over the concrete fixtures. -/
def optsA (f : String) : FormatBindingOptions :=
  ⟨f, "view1", "w1", .jobj .nil, .jobj .nil, none, libA⟩

/-- Parser stub with one cacheable binding list for the template `"pre"`. -/
def parserPre : String → Option (List Binding) :=
  fun f => if f == "pre" then some [⟨"a.val", "tok", some []⟩] else none

/-- Parser stub for a two-binding template: the first binding substitutes
normally, the second carries an unrecognized operation. -/
def parserTwo : String → Option (List Binding) :=
  fun f =>
    if f == "W1W2" then
      some [⟨"a.val", "W1", none⟩, ⟨"b.val", "W2", some [⟨"bogus", .undef, ""⟩]⟩]
    else none

/-- Options for the two-binding template, with an explicit values map that
resolves the first binding to the text `X`. -/
def optsTwo : FormatBindingOptions :=
  ⟨"W1W2", "view1", "w1", .jobj .nil, .jobj .nil,
   some (fun k => if k == "a.val" then .str "X" else .undef), libA⟩

/-- Parser stub yielding a single binding whose chain is one argument-less
`eval` operation. -/
def parserEvalStub : String → Option (List Binding) :=
  fun f => if f == "T" then some [⟨"x.val", "T", some [⟨"eval", .args [], "1+1"⟩]⟩] else none

end VisFmt

namespace VisFmt

theorem ratTrunc_mkRat_one (j : Int) : ratTrunc (mkRat j 1) = j := by
  unfold ratTrunc
  rw [Rat.mkRat_one]
  rcases le_or_lt 0 (j : Rat) with h | h
  · rw [if_pos h]
    simp [Rat.floor, Rat.den_intCast, Rat.num_intCast]
  · rw [if_neg (not_le.mpr h)]
    simp [Rat.ceil, Rat.den_intCast, Rat.num_intCast]

theorem jsTruthy_int (j : Int) (h : j ≠ 0) : jsTruthy (.num (mkRat j 1)) = true := by
  simp [jsTruthy, Rat.mkRat_one]
  exact_mod_cast h

theorem dateFromNumber_int (j : Int) (isDur : Bool) :
    dateFromNumber (mkRat j 1) isDur =
      (if j < 946681200 then (j, true)
       else if j < 946681200000 then (j * 1000, isDur) else (j, isDur)) := by
  unfold dateFromNumber
  rw [ratTrunc_mkRat_one]
  simp

theorem formatDate_num (ctx : VisCtx) (isDurArg fmtArg : JsValue) (q : Rat)
    (hq : jsTruthy (.num q) = true) :
    formatDate ctx (.num q) isDurArg fmtArg =
      dateRender ctx.tzOffsetMin (resolveDateFmt ctx (normDateArgs isDurArg fmtArg).2)
        (if (dateFromNumber q (normDateArgs isDurArg fmtArg).1).2
         then (dateFromNumber q (normDateArgs isDurArg fmtArg).1).1 + ctx.tzOffsetMin * 60000
         else (dateFromNumber q (normDateArgs isDurArg fmtArg).1).1) := by
  unfold formatDate
  rw [hq]
  simp

theorem formatDate_falsy (ctx : VisCtx) (d a b : JsValue) (h : jsTruthy d = false) :
    formatDate ctx d a b = "" := by
  unfold formatDate
  rw [h]
  simp

theorem formatMomentDate_falsy (ctx : VisCtx) (lib : MomentLib) (d a b : JsValue)
    (h : jsTruthy d = false) : formatMomentDate ctx lib d a b = some "" := by
  unfold formatMomentDate
  rw [h]
  simp

end VisFmt

namespace VisFmt

/-- C1: the claim says a `formatBinding` call on a template with no
recognizable binding token returns the template with doubled braces
restored and lets no exception escape, including when the parser primitive
reports the absence of bindings as `null` or as an empty list. The code
violates the exception half: `extractBinding` returns `null` both for the
empty template (its own falsy-format guard, independent of the parser) and
whenever the parser primitive answers `null`, and `formatBinding` iterates
`for (const oid of oids)` over that `null`, so the host throws
`TypeError: oids is not iterable`. The empty-list report behaves as
claimed: the template comes back unescaped with no exception. -/
theorem C1_noBinding_nullParse_throws :
    formatBinding ctxA parserReportsNull [] (optsA "") =
      (.error "TypeError: oids is not iterable", [], []) ∧
    formatBinding ctxA parserReportsNull [] (optsA "abc") =
      (.error "TypeError: oids is not iterable", [], []) ∧
    (formatBinding ctxA parserReportsEmpty []
        (optsA (String.mk ['a', lbrace, lbrace, 'b', rbrace, rbrace, 'c']))).1 =
      .ok (String.mk ['a', lbrace, 'b', rbrace, 'c']) := by
  refine ⟨by decide, by decide, by decide⟩

/-- C2: every failing `eval` script is caught; the error is logged together
with the generated script text (and the template and the exception), the
pipeline value becomes the number `0`, the remaining operations still run
on that `0`, and `formatBinding` still returns a normal (`ok`) string to
its caller whenever the parse produced a binding list. -/
theorem C2_evalError_caught :
    (∀ (env : BindEnv) (fmt : String) (v : JsValue) (rnd : Nat) (args : List EvalArg)
        (formula e : String) (rest : List Operation),
      env.ctx.evalExec (buildEvalScript env args formula) = .error e →
      applyOperation env fmt ⟨"eval", .args args, formula⟩ v rnd =
        (.num 0,
         [.error ("Error in eval[value]: " ++ fmt),
          .error ("Error in eval[script]: " ++ buildEvalScript env args formula),
          .error ("Error in eval[error]: " ++ e)], rnd) ∧
      runOperations env fmt (⟨"eval", .args args, formula⟩ :: rest) v rnd =
        ((runOperations env fmt rest (.num 0) rnd).1,
         [LogEntry.error ("Error in eval[value]: " ++ fmt),
          .error ("Error in eval[script]: " ++ buildEvalScript env args formula),
          .error ("Error in eval[error]: " ++ e)] ++
           (runOperations env fmt rest (.num 0) rnd).2.1,
         (runOperations env fmt rest (.num 0) rnd).2.2)) ∧
    (∀ (ctx : VisCtx) (parserPrim : String → Option (List Binding)) (cache : BCache)
        (opts : FormatBindingOptions) (bs : List Binding),
      opts.format ≠ "" → parserPrim opts.format = some bs →
      ∃ out, (formatBinding ctx parserPrim cache opts).1 = .ok out) := by
  constructor
  · intro env fmt v rnd args formula e rest h
    have h1 : applyOperation env fmt ⟨"eval", .args args, formula⟩ v rnd =
        (.num 0,
         [.error ("Error in eval[value]: " ++ fmt),
          .error ("Error in eval[script]: " ++ buildEvalScript env args formula),
          .error ("Error in eval[error]: " ++ e)], rnd) := by
      simp [applyOperation, h]
    exact ⟨h1, by simp [runOperations, h1]⟩
  · intro ctx parserPrim cache opts bs hf hp
    unfold formatBinding extractBinding
    simp [hf]
    by_cases he : ctx.editMode
    · simp [he, hp]
    · simp [he]
      cases hq : bcacheGet cache opts.format with
      | some entry => simp [hq]
      | none => simp [hq, hp]

/-- C2 witness: over the concrete fixtures every script fails with
`SyntaxError`; the argument-less `eval` of formula `1+1` logs the three
error lines with its script text, forces the value to `0`, and a
`formatBinding` call whose binding chain is exactly that `eval` still
returns `ok`. -/
theorem C2_evalError_caught_witness :
    (envA.ctx.evalExec (buildEvalScript envA [] "1+1") = .error "SyntaxError") ∧
    applyOperation envA "T" ⟨"eval", .args [], "1+1"⟩ (.num 5) 0 =
      (.num 0,
       [.error ("Error in eval[value]: " ++ "T"),
        .error ("Error in eval[script]: " ++ buildEvalScript envA [] "1+1"),
        .error ("Error in eval[error]: " ++ "SyntaxError")], 0) ∧
    (parserEvalStub "T" =
      some [⟨"x.val", "T", some [⟨"eval", .args [], "1+1"⟩]⟩]) ∧
    (∃ out, (formatBinding ctxA parserEvalStub [] (optsA "T")).1 = .ok out) := by
  refine ⟨by decide, ?_, by decide, ?_⟩
  · exact (C2_evalError_caught.1 envA "T" (.num 5) 0 [] "1+1" "SyntaxError" [] (by decide)).1
  · exact C2_evalError_caught.2 ctxA parserEvalStub [] (optsA "T")
      [⟨"x.val", "T", some [⟨"eval", .args [], "1+1"⟩]⟩] (by decide) (by decide)

end VisFmt

namespace VisFmt

/-- C3 counterexample: the claim says two sequential non-edit-mode calls
with an identical template invoke the parser primitive exactly once. With
the parser answering `null` (its spec-sanctioned report for a template with
no recognizable binding token) nothing is cached — the source only stores
truthy results — so two sequential calls on the template `"abc"` in the
non-edit context invoke the primitive twice, not once. -/
theorem C3_counterexample_nullParse_reparsed :
    ctxA.editMode = false ∧
    (extractBinding ctxA parserReportsNull [] "abc").2.2 +
      (extractBinding ctxA parserReportsNull
        (extractBinding ctxA parserReportsNull [] "abc").2.1 "abc").2.2 = 2 ∧
    ¬ ((extractBinding ctxA parserReportsNull [] "abc").2.2 +
        (extractBinding ctxA parserReportsNull
          (extractBinding ctxA parserReportsNull [] "abc").2.1 "abc").2.2 = 1) := by
  refine ⟨by decide, by decide, by decide⟩

/-- C3 (amended): for non-empty templates, edit mode bypasses the cache
entirely — no read, no write, one parser invocation per call; in non-edit
mode a template whose parse yields a (non-`null`) binding list is parsed
exactly once across two sequential calls, the entry being stored as a deep
copy and the hit returning a deep copy of the stored entry (the JSON
round-trip `deepClone` is the identity on this pure data); a `null` parse
is never cached, so the parser runs again on the next call. -/
theorem C3_cache_bypass_and_memoization :
    (∀ (ctx : VisCtx) (parserPrim : String → Option (List Binding)) (cache : BCache)
        (fmt : String), ctx.editMode = true → fmt ≠ "" →
      extractBinding ctx parserPrim cache fmt = (parserPrim fmt, cache, 1)) ∧
    (∀ (ctx : VisCtx) (parserPrim : String → Option (List Binding)) (cache : BCache)
        (fmt : String) (r : List Binding),
      ctx.editMode = false → fmt ≠ "" → bcacheGet cache fmt = none →
      parserPrim fmt = some r →
      extractBinding ctx parserPrim cache fmt = (some r, (fmt, deepClone r) :: cache, 1) ∧
      extractBinding ctx parserPrim ((fmt, deepClone r) :: cache) fmt =
        (some (deepClone (deepClone r)), (fmt, deepClone r) :: cache, 0)) ∧
    (∀ (ctx : VisCtx) (parserPrim : String → Option (List Binding)) (cache : BCache)
        (fmt : String),
      ctx.editMode = false → fmt ≠ "" → bcacheGet cache fmt = none →
      parserPrim fmt = none →
      extractBinding ctx parserPrim cache fmt = (none, cache, 1)) := by
  refine ⟨?_, ?_, ?_⟩
  · intro ctx parserPrim cache fmt he hf
    unfold extractBinding
    cases hp : parserPrim fmt <;> simp [he, hf, hp]
  · intro ctx parserPrim cache fmt r he hf hc hp
    constructor
    · unfold extractBinding
      simp [he, hf, hc, hp]
    · unfold extractBinding
      simp [he, hf, bcacheGet]
  · intro ctx parserPrim cache fmt he hf hc hp
    unfold extractBinding
    simp [he, hf, hc, hp]

/-- C3 witness: on the template `"pre"` whose parse yields one binding, the
first non-edit call parses (one invocation) and stores a copy, the second
call hits the cache with zero invocations and returns a copy of the stored
entry. -/
theorem C3_cache_witness :
    ctxA.editMode = false ∧ bcacheGet [] "pre" = none ∧
    parserPre "pre" = some [⟨"a.val", "tok", some []⟩] ∧
    (extractBinding ctxA parserPre [] "pre" =
      (some [⟨"a.val", "tok", some []⟩],
       [("pre", deepClone [⟨"a.val", "tok", some []⟩])], 1) ∧
     extractBinding ctxA parserPre [("pre", deepClone [⟨"a.val", "tok", some []⟩])] "pre" =
      (some (deepClone (deepClone [⟨"a.val", "tok", some []⟩])),
       [("pre", deepClone [⟨"a.val", "tok", some []⟩])], 0)) := by
  refine ⟨by decide, by decide, by decide, ?_⟩
  exact C3_cache_bypass_and_memoization.2.1 ctxA parserPre [] "pre"
    [⟨"a.val", "tok", some []⟩] (by decide) (by decide) (by decide) (by decide)

end VisFmt

namespace VisFmt

/-- C4 counterexample: the claim says every integer input below 946681200
is treated as a duration and shifted by the timezone offset before field
extraction; at the integer `0` (falsy in JS) `formatDate` instead returns
the empty string before the threshold heuristic runs, so no duration
rendering happens there. -/
theorem C4_counterexample_zero_input :
    formatDate ctxA (.num 0) .undef .undef = "" ∧
    ¬ (formatDate ctxA (.num 0) .undef .undef =
        dateRender ctxA.tzOffsetMin (resolveDateFmt ctxA (normDateArgs .undef .undef).2)
          (0 + ctxA.tzOffsetMin * 60000)) := by
  refine ⟨by decide, by decide⟩

/-- C4 (amended): for every nonzero integer input to the custom date
formatter, an integer below 946681200 is treated as a duration — the
instant is the raw value in epoch ms shifted forward by exactly one
timezone offset before field extraction, whatever the duration argument
was; an integer in [946681200, 946681200000) is epoch seconds (scaled by
1000) and an integer at or above 946681200000 is epoch ms, both rendered
unshifted when the duration flag is not separately forced. -/
theorem C4_threshold_classification :
    ∀ (ctx : VisCtx) (isDurArg fmtArg : JsValue) (j : Int), j ≠ 0 →
    ((j < 946681200 →
      formatDate ctx (.num (mkRat j 1)) isDurArg fmtArg =
        dateRender ctx.tzOffsetMin (resolveDateFmt ctx (normDateArgs isDurArg fmtArg).2)
          (j + ctx.tzOffsetMin * 60000)) ∧
     (946681200 ≤ j → j < 946681200000 → (normDateArgs isDurArg fmtArg).1 = false →
      formatDate ctx (.num (mkRat j 1)) isDurArg fmtArg =
        dateRender ctx.tzOffsetMin (resolveDateFmt ctx (normDateArgs isDurArg fmtArg).2)
          (j * 1000)) ∧
     (946681200000 ≤ j → (normDateArgs isDurArg fmtArg).1 = false →
      formatDate ctx (.num (mkRat j 1)) isDurArg fmtArg =
        dateRender ctx.tzOffsetMin (resolveDateFmt ctx (normDateArgs isDurArg fmtArg).2)
          j)) := by
  intro ctx isDurArg fmtArg j h0
  have ht := jsTruthy_int j h0
  rw [formatDate_num ctx isDurArg fmtArg (mkRat j 1) ht, dateFromNumber_int]
  refine ⟨fun hlt => ?_, fun hge hlt hdur => ?_, fun hge hdur => ?_⟩
  · rw [if_pos hlt]
    simp
  · rw [if_neg (not_lt.mpr hge), if_pos hlt, hdur]
    simp
  · have h1 : ¬ (j < 946681200) := not_lt.mpr (le_trans (by norm_num) hge)
    rw [if_neg h1, if_neg (not_lt.mpr hge), hdur]
    simp

/-- C4 witness: the duration value `100` over the concrete UTC-1 context is
rendered from the instant `100 + 60·60000` ms — the timezone pre-shift
applied exactly once — which the local-time extraction maps back to
1970-01-01, and the seconds value `946684800` is scaled by 1000. -/
theorem C4_threshold_witness :
    ((100 : Int) ≠ 0 ∧ (100 : Int) < 946681200) ∧
    formatDate ctxA (.num (mkRat 100 1)) .undef .undef =
      dateRender ctxA.tzOffsetMin (resolveDateFmt ctxA (normDateArgs .undef .undef).2)
        (100 + ctxA.tzOffsetMin * 60000) ∧
    formatDate ctxA (.num (mkRat 100 1)) .undef .undef = "01.01.1970" ∧
    ((946681200 : Int) ≤ 946684800 ∧ (946684800 : Int) < 946681200000 ∧
      (normDateArgs JsValue.undef JsValue.undef).1 = false) ∧
    formatDate ctxA (.num (mkRat 946684800 1)) .undef .undef =
      dateRender ctxA.tzOffsetMin (resolveDateFmt ctxA (normDateArgs .undef .undef).2)
        (946684800 * 1000) := by
  refine ⟨⟨by decide, by decide⟩, ?_, by decide, ⟨by decide, by decide, by decide⟩, ?_⟩
  · exact (C4_threshold_classification ctxA .undef .undef 100 (by decide)).1 (by decide)
  · exact (C4_threshold_classification ctxA .undef .undef 946684800 (by decide)).2.1
      (by decide) (by decide) (by decide)

end VisFmt

namespace VisFmt

/-- C5: with a present numeric argument `a`, the `min` operation returns
`a` exactly when `parseFloat` of the current value is below `a` and the
parsed value otherwise (a floor), and `max` returns `a` exactly when the
parsed value is above `a` and the parsed value otherwise (a ceiling). -/
theorem C5_min_max_clamp :
    ∀ (env : BindEnv) (fmt : String) (rnd : Nat) (v : JsValue) (a q : Rat),
    jsParseFloat v = some q →
    applyOperation env fmt ⟨"min", .num a, ""⟩ v rnd =
      ((if q < a then .num a else .num q), [], rnd) ∧
    applyOperation env fmt ⟨"max", .num a, ""⟩ v rnd =
      ((if a < q then .num a else .num q), [], rnd) := by
  intro env fmt rnd v a q h
  constructor
  · by_cases hqa : q < a <;> simp [applyOperation, h, hqa, operArgNumber, operArgToValue]
  · by_cases haq : a < q <;> simp [applyOperation, h, haq, operArgNumber, operArgToValue]

/-- C5 witness: `min` on value `5` with argument `10` yields `10`; `max` on
value `15` with argument `10` yields `10`. -/
theorem C5_min_max_clamp_witness :
    jsParseFloat (.num 5) = some 5 ∧
    applyOperation envA "T" ⟨"min", .num 10, ""⟩ (.num 5) 0 =
      ((if (5 : Rat) < 10 then .num 10 else .num 5), [], 0) ∧
    applyOperation envA "T" ⟨"min", .num 10, ""⟩ (.num 5) 0 = (.num 10, [], 0) ∧
    jsParseFloat (.num 15) = some 15 ∧
    applyOperation envA "T" ⟨"max", .num 10, ""⟩ (.num 15) 0 =
      ((if (10 : Rat) < 15 then .num 10 else .num 15), [], 0) ∧
    applyOperation envA "T" ⟨"max", .num 10, ""⟩ (.num 15) 0 = (.num 10, [], 0) := by
  refine ⟨by decide, ?_, by decide, by decide, ?_, by decide⟩
  · exact (C5_min_max_clamp envA "T" 0 (.num 5) 10 5 (by decide)).1
  · exact (C5_min_max_clamp envA "T" 0 (.num 15) 10 15 (by decide)).2

/-- C6 counterexample: `formatValue(1234.5, 2)` with the separator pair
omitted returns the German-styled `"1.234,50"` — the default pair `".,"`
puts the group character first and the decimal character second — not the
`"1,234.50"` the claim states. -/
theorem C6_counterexample_separator_order :
    formatValue (.num (mkRat 2469 2)) (.num 2) .undef = "1.234,50" ∧
    ¬ (formatValue (.num (mkRat 2469 2)) (.num 2) .undef = "1,234.50") := by
  refine ⟨by decide, by decide⟩

/-- C6 (amended): `formatValue(1234.5, 2)` with the separator pair omitted
(default `".,"`) returns `"1.234,50"`: the value is fixed to 2 decimals,
the decimal point becomes the second character of the pair and group
separators — the first character of the pair — are inserted every 3 digits
of the integer part; and every value that is NaN after float coercion
yields the empty string. -/
theorem C6_formatValue_german_default :
    formatValue (.num (mkRat 2469 2)) (.num 2) .undef = "1.234,50" ∧
    (∀ (v d f : JsValue), jsParseFloat v = none → formatValue v d f = "") := by
  constructor
  · decide
  · intro v d f h
    cases v <;> simp_all [formatValue, jsParseFloat]

/-- C6 witness: a non-numeric string input produces the empty string. -/
theorem C6_formatValue_witness :
    jsParseFloat (.str "abc") = none ∧ formatValue (.str "abc") (.num 2) .undef = "" := by
  exact ⟨by decide, C6_formatValue_german_default.2 (.str "abc") (.num 2) .undef (by decide)⟩

end VisFmt

namespace VisFmt

/-- C7: the claim (and the spec's intent, which the `result || ''`
fallbacks and the function's other branches corroborate) is that the
today-or-yesterday mode always returns the library's rendering of the
pattern, with weekday tokens replaced by the localized Today/Yesterday
literal on those two days. The source writes `} if (` instead of
`} else if (` and has no final else, so `result` stays unassigned for any
instant on neither day and the function returns `undefined` instead of a
rendered string: over the concrete fixtures, an instant two days before
"now" yields `none` while today and yesterday substitute correctly. -/
theorem C7_todayYesterday_missing_else :
    formatMomentDate ctxA libA (.date 691200000) (.str "dddd") (.bool true) = none ∧
    formatMomentDate ctxA libA (.date 864000000) (.str "dddd") (.bool true) =
      some ("R:" ++ "Today" ++ ":" ++ "864000000") ∧
    formatMomentDate ctxA libA (.date 777600000) (.str "dddd") (.bool true) =
      some ("R:" ++ "Yesterday" ++ ":" ++ "777600000") := by
  refine ⟨by decide, by decide, by decide⟩

/-- C8 counterexample: a `momentDate` operation with an absent argument
does not format the value with the engine's default date pattern — the
whole case is skipped and the value stays byte-for-byte unchanged (here
the epoch-ms number survives instead of the library rendering the default
pattern `DD.MM.YYYY` would produce). -/
theorem C8_counterexample_momentDate_skips :
    (applyOperation envA "T" ⟨"momentDate", .undef, ""⟩ (.num 946684800000) 0).1 =
      .num 946684800000 ∧
    ¬ ((applyOperation envA "T" ⟨"momentDate", .undef, ""⟩ (.num 946684800000) 0).1 =
        .str (libA.fmt 946684800000 "DD.MM.YYYY")) := by
  refine ⟨by decide, by decide⟩

/-- C8 (amended): the `date` operation with an absent pattern argument
formats through `formatDate`, whose pattern resolution falls back to the
engine's configured default date pattern (both formatters share that
resolution); the `momentDate` operation with an absent argument performs no
formatting at all and leaves the value unchanged. -/
theorem C8_default_pattern :
    (∀ (env : BindEnv) (fmt : String) (v : JsValue) (rnd : Nat),
      applyOperation env fmt ⟨"date", .undef, ""⟩ v rnd =
        (.str (formatDate env.ctx v .undef .undef), [], rnd)) ∧
    normDateArgs .undef .undef = (false, .undef) ∧
    (∀ ctx : VisCtx, ctx.dateFormat ≠ "" → resolveDateFmt ctx .undef = ctx.dateFormat) ∧
    (∀ (env : BindEnv) (fmt : String) (v : JsValue) (rnd : Nat),
      applyOperation env fmt ⟨"momentDate", .undef, ""⟩ v rnd = (v, [], rnd)) := by
  refine ⟨?_, rfl, ?_, ?_⟩
  · intro env fmt v rnd
    simp [applyOperation, operArgToValue]
  · intro ctx h
    simp [resolveDateFmt, jsTruthy, h]
  · intro env fmt v rnd
    simp [applyOperation]

/-- C8 witness: over the concrete context (configured pattern
`DD.MM.YYYY`), the `date` operation with absent argument delegates to
`formatDate`, the shared resolution picks the configured pattern, and the
`momentDate` operation with absent argument returns its input unchanged. -/
theorem C8_default_pattern_witness :
    ctxA.dateFormat ≠ "" ∧
    resolveDateFmt ctxA .undef = ctxA.dateFormat ∧
    applyOperation envA "T" ⟨"date", .undef, ""⟩ (.num 100) 0 =
      (.str (formatDate envA.ctx (.num 100) .undef .undef), [], 0) ∧
    applyOperation envA "T" ⟨"momentDate", .undef, ""⟩ (.num 100) 0 = (.num 100, [], 0) := by
  refine ⟨by decide, ?_, ?_, ?_⟩
  · exact C8_default_pattern.2.2.1 ctxA (by decide)
  · exact C8_default_pattern.1 envA "T" (.num 100) 0
  · exact C8_default_pattern.2.2.2 envA "T" (.num 100) 0

end VisFmt

namespace VisFmt

/-- C9 counterexample: the warning for an unknown operator does not
identify the original template once an earlier binding has substituted:
on the two-binding template `"W1W2"` the first binding replaces `W1` by
`X` before the second binding's unknown operation logs, so the warning
reads `Unknown operator: XW2`, not `Unknown operator: W1W2`. -/
theorem C9_counterexample_substituted_template :
    (formatBinding ctxA parserTwo [] optsTwo).2.2 = [.warn "Unknown operator: XW2"] ∧
    ¬ ((formatBinding ctxA parserTwo [] optsTwo).2.2 =
        [LogEntry.warn "Unknown operator: W1W2"]) := by
  refine ⟨by decide, by decide⟩

/-- C9 (amended): an operation whose kind is none of the recognized
operator names logs one warning identifying the current — possibly already
partially substituted — working template, leaves the value byte-for-byte
unchanged, and the pipeline continues with the remaining operations. -/
theorem C9_unknown_operator :
    ∀ (env : BindEnv) (fmt : String) (op : Operation) (v : JsValue) (rnd : Nat)
      (rest : List Operation),
    op.op ∉ knownOps →
    applyOperation env fmt op v rnd = (v, [.warn ("Unknown operator: " ++ fmt)], rnd) ∧
    runOperations env fmt (op :: rest) v rnd =
      ((runOperations env fmt rest v rnd).1,
       .warn ("Unknown operator: " ++ fmt) :: (runOperations env fmt rest v rnd).2.1,
       (runOperations env fmt rest v rnd).2.2) := by
  intro env fmt op v rnd rest h
  simp [knownOps] at h
  obtain ⟨h1, h2, h3, h4, h5, h6, h7, h8, h9, h10, h11, h12, h13, h14, h15, h16, h17,
    h18, h19, h20, h21, h22, h23⟩ := h
  have ha : applyOperation env fmt op v rnd =
      (v, [.warn ("Unknown operator: " ++ fmt)], rnd) := by
    simp [applyOperation, h1, h2, h3, h4, h5, h6, h7, h8, h9, h10, h11, h12, h13, h14,
      h15, h16, h17, h18, h19, h20, h21, h22, h23]
  exact ⟨ha, by simp [runOperations, ha]⟩

/-- C9 witness: the operator kind `frobnicate` is unrecognized; on a
single-operation chain the value survives unchanged and exactly the one
warning naming the working template is logged. -/
theorem C9_unknown_operator_witness :
    ("frobnicate" ∉ knownOps) ∧
    applyOperation envA "T" ⟨"frobnicate", .undef, ""⟩ (.str "x") 0 =
      (.str "x", [.warn ("Unknown operator: " ++ "T")], 0) := by
  refine ⟨by decide, ?_⟩
  exact (C9_unknown_operator envA "T" ⟨"frobnicate", .undef, ""⟩ (.str "x") 0 []
    (by decide)).1

/-- C10: for every falsy date input — `null`, `undefined`, the empty
string, `false` or the number `0` — both `formatDate` and
`formatMomentDate` return the empty string before any parsing, threshold
heuristic or pattern rendering; in particular the Unix-epoch instant `0`
can never be formatted as a date. -/
theorem C10_falsy_dates_empty :
    ∀ (ctx : VisCtx) (lib : MomentLib) (a b c : JsValue),
    formatDate ctx .null a b = "" ∧ formatDate ctx .undef a b = "" ∧
    formatDate ctx (.str "") a b = "" ∧ formatDate ctx (.bool false) a b = "" ∧
    formatDate ctx (.num 0) a b = "" ∧
    formatMomentDate ctx lib .null b c = some "" ∧
    formatMomentDate ctx lib .undef b c = some "" ∧
    formatMomentDate ctx lib (.str "") b c = some "" ∧
    formatMomentDate ctx lib (.bool false) b c = some "" ∧
    formatMomentDate ctx lib (.num 0) b c = some "" := by
  intro ctx lib a b c
  exact ⟨rfl, rfl, rfl, rfl, formatDate_falsy ctx _ a b (by decide),
    rfl, rfl, rfl, rfl, formatMomentDate_falsy ctx lib _ b c (by decide)⟩

end VisFmt
